import Mathlib

/-!
Shallow embedding of the frame model and socket layer of the pcan-basic
crate (src/src/lib.rs and src/src/can/usb.rs), with theorems checking the
specification's claims about it.

Bytes are modelled as `Nat` (no claim depends on byte overflow); `u32`
identifiers are `Nat` masked with the source's bitmasks; fixed-size
buffers `[u8; 8]` / `[u8; 64]` are lists whose length-8 / length-64
well-formedness is tracked where it matters.
-/

/- Addressing mode enumeration, from src/src/lib.rs lines 11-15. -/
inductive MessageType where
  | Standard
  | Extended
deriving DecidableEq, Repr

/- Frame construction errors, from src/src/lib.rs lines 17-21. -/
inductive FrameConstructionError where
  | TooMuchData
  | CanIdMessageTypeMismatch
deriving DecidableEq, Repr

/- Identifier masks, from src/src/lib.rs lines 23-24. -/
def STANDARD_MASK : Nat := 0x07FF

def EXTENDED_MASK : Nat := 0x1FFFFFFF

/-- Modelled from the spec: the message-type flag constants come from the
external driver binding (`pcan_basic_sys`), which the spec treats as an
opaque foreign boundary; the PCAN-Basic API fixes the standard flag at
0x00 and the extended flag at 0x02.  No theorem below depends on these
particular values. -/
def PCAN_MESSAGE_STANDARD : Nat := 0x00

/-- Modelled from the spec: see `PCAN_MESSAGE_STANDARD`. -/
def PCAN_MESSAGE_EXTENDED : Nat := 0x02

/- Raw classic message, mirroring `pcan::TPCANMsg` as used by lib.rs:
fields ID (u32), MSGTYPE (u8), LEN (u8), DATA ([u8; 8]). -/
structure TPCANMsg where
  ID : Nat
  MSGTYPE : Nat
  LEN : Nat
  DATA : List Nat
deriving DecidableEq, Repr

/- Raw FD message, mirroring `pcan::TPCANMsgFD`: fields ID (u32),
MSGTYPE (u8), DLC (u8), DATA ([u8; 64]). -/
structure TPCANMsgFD where
  ID : Nat
  MSGTYPE : Nat
  DLC : Nat
  DATA : List Nat
deriving DecidableEq, Repr

/- Classic frame wrapper, from src/src/lib.rs lines 26-29. -/
structure CanFrame where
  frame : TPCANMsg
deriving DecidableEq, Repr

/- FD frame wrapper, from src/src/lib.rs lines 134-137. -/
structure CanFdFrame where
  frame : TPCANMsgFD
deriving DecidableEq, Repr

/- `CanFrame::MAX_DLC`, src/src/lib.rs line 32. -/
def CanFrame.MAX_DLC : Nat := 8

/- `CanFdFrame::MAX_DLC`, src/src/lib.rs line 140. -/
def CanFdFrame.MAX_DLC : Nat := 64

/- `CanFrame::new`, src/src/lib.rs lines 34-66.  The loop copying `data`
into the zero-initialised `[0u8; 8]` buffer is the pad-with-zeros append;
both match arms build the same record, as in the source. -/
def CanFrame.new (can_id : Nat) (msg_type : MessageType) (data : List Nat) :
    Except FrameConstructionError CanFrame :=
  if data.length > CanFrame.MAX_DLC then
    .error .TooMuchData
  else
    let frame_data : List Nat := data ++ List.replicate (8 - data.length) 0
    match msg_type with
    | .Standard =>
        .ok { frame := { ID := can_id &&& STANDARD_MASK,
                         MSGTYPE := PCAN_MESSAGE_STANDARD,
                         LEN := data.length,
                         DATA := frame_data } }
    | .Extended =>
        .ok { frame := { ID := can_id &&& STANDARD_MASK,
                         MSGTYPE := PCAN_MESSAGE_STANDARD,
                         LEN := data.length,
                         DATA := frame_data } }

/- `CanFrame::is_standard_frame`, src/src/lib.rs lines 68-74. -/
def CanFrame.is_standard_frame (f : CanFrame) : Bool :=
  if f.frame.MSGTYPE &&& PCAN_MESSAGE_STANDARD ≠ 0 then true else false

/- `CanFrame::is_extended_frame`, src/src/lib.rs lines 76-82. -/
def CanFrame.is_extended_frame (f : CanFrame) : Bool :=
  if f.frame.MSGTYPE &&& PCAN_MESSAGE_EXTENDED ≠ 0 then true else false

/- `CanFrame::can_id`, src/src/lib.rs lines 84-90. -/
def CanFrame.can_id (f : CanFrame) : Nat :=
  if f.is_standard_frame then
    f.frame.ID &&& STANDARD_MASK
  else
    f.frame.ID &&& EXTENDED_MASK

/- `CanFrame::dlc`, src/src/lib.rs lines 92-94. -/
def CanFrame.dlc (f : CanFrame) : Nat :=
  f.frame.LEN

/- `CanFrame::data`, src/src/lib.rs lines 96-98.  The Rust slice
`&DATA[0..dlc]` panics when `dlc` exceeds the buffer length; the panic is
modelled as `none`. -/
def CanFrame.data (f : CanFrame) : Option (List Nat) :=
  if f.frame.LEN ≤ f.frame.DATA.length then
    some (f.frame.DATA.take f.frame.LEN)
  else
    none

/- The effect of writing through `CanFrame::mut_data` (src/src/lib.rs
lines 100-103): the caller may overwrite exactly the first `dlc` bytes of
the buffer; nothing else about the frame changes.  `none` models the
panic of the slice when `dlc` exceeds the buffer length, and writes of
the wrong width are impossible through the returned slice. -/
def CanFrame.writeData (f : CanFrame) (newBytes : List Nat) : Option CanFrame :=
  if f.frame.LEN ≤ f.frame.DATA.length ∧ newBytes.length = f.frame.LEN then
    some { frame := { f.frame with DATA := newBytes ++ f.frame.DATA.drop f.frame.LEN } }
  else
    none

/- `Default for CanFrame`, src/src/lib.rs lines 106-110: the source
unwraps `CanFrame::new(0, Standard, &[])`, which always succeeds. -/
def CanFrame.defaultFrame : CanFrame :=
  { frame := { ID := 0 &&& STANDARD_MASK,
               MSGTYPE := PCAN_MESSAGE_STANDARD,
               LEN := 0,
               DATA := List.replicate 8 0 } }

/- `PartialEq for CanFrame`, src/src/lib.rs lines 112-132: compares ID,
LEN, MSGTYPE, then the `data()` slices.  `none` models the panic of
`data()` on a corrupt length. -/
def CanFrame.beq (a b : CanFrame) : Option Bool :=
  if a.frame.ID ≠ b.frame.ID then some false
  else if a.frame.LEN ≠ b.frame.LEN then some false
  else if a.frame.MSGTYPE ≠ b.frame.MSGTYPE then some false
  else
    match a.data, b.data with
    | some x, some y => if x ≠ y then some false else some true
    | _, _ => none

/- `CanFdFrame::new`, src/src/lib.rs lines 142-174. -/
def CanFdFrame.new (can_id : Nat) (msg_type : MessageType) (data : List Nat) :
    Except FrameConstructionError CanFdFrame :=
  if data.length > CanFdFrame.MAX_DLC then
    .error .TooMuchData
  else
    let frame_data : List Nat := data ++ List.replicate (64 - data.length) 0
    match msg_type with
    | .Standard =>
        .ok { frame := { ID := can_id &&& STANDARD_MASK,
                         MSGTYPE := PCAN_MESSAGE_STANDARD,
                         DLC := data.length,
                         DATA := frame_data } }
    | .Extended =>
        .ok { frame := { ID := can_id &&& STANDARD_MASK,
                         MSGTYPE := PCAN_MESSAGE_STANDARD,
                         DLC := data.length,
                         DATA := frame_data } }

/- `CanFdFrame::is_standard_frame`, src/src/lib.rs lines 176-182. -/
def CanFdFrame.is_standard_frame (f : CanFdFrame) : Bool :=
  if f.frame.MSGTYPE &&& PCAN_MESSAGE_STANDARD ≠ 0 then true else false

/- `CanFdFrame::is_extended_frame`, src/src/lib.rs lines 184-190. -/
def CanFdFrame.is_extended_frame (f : CanFdFrame) : Bool :=
  if f.frame.MSGTYPE &&& PCAN_MESSAGE_EXTENDED ≠ 0 then true else false

/- `CanFdFrame::can_id`, src/src/lib.rs lines 192-198. -/
def CanFdFrame.can_id (f : CanFdFrame) : Nat :=
  if f.is_standard_frame then
    f.frame.ID &&& STANDARD_MASK
  else
    f.frame.ID &&& EXTENDED_MASK

/- `CanFdFrame::dlc`, src/src/lib.rs lines 200-202. -/
def CanFdFrame.dlc (f : CanFdFrame) : Nat :=
  f.frame.DLC

/- `CanFdFrame::data`, src/src/lib.rs lines 204-206. -/
def CanFdFrame.data (f : CanFdFrame) : Option (List Nat) :=
  if f.frame.DLC ≤ f.frame.DATA.length then
    some (f.frame.DATA.take f.frame.DLC)
  else
    none

/- The effect of writing through `CanFdFrame::mut_data`, src/src/lib.rs
lines 208-211; see `CanFrame.writeData`. -/
def CanFdFrame.writeData (f : CanFdFrame) (newBytes : List Nat) : Option CanFdFrame :=
  if f.frame.DLC ≤ f.frame.DATA.length ∧ newBytes.length = f.frame.DLC then
    some { frame := { f.frame with DATA := newBytes ++ f.frame.DATA.drop f.frame.DLC } }
  else
    none

/- `Default for CanFdFrame`, src/src/lib.rs lines 214-218. -/
def CanFdFrame.defaultFrame : CanFdFrame :=
  { frame := { ID := 0 &&& STANDARD_MASK,
               MSGTYPE := PCAN_MESSAGE_STANDARD,
               DLC := 0,
               DATA := List.replicate 64 0 } }

/- `PartialEq for CanFdFrame`, src/src/lib.rs lines 220-240. -/
def CanFdFrame.beq (a b : CanFdFrame) : Option Bool :=
  if a.frame.ID ≠ b.frame.ID then some false
  else if a.frame.DLC ≠ b.frame.DLC then some false
  else if a.frame.MSGTYPE ≠ b.frame.MSGTYPE then some false
  else
    match a.data, b.data with
    | some x, some y => if x ≠ y then some false else some true
    | _, _ => none

/-- Modelled from the spec: the error module (`crate::error`) is declared
by lib.rs (`pub mod error`) but its source is not present; the spec (§7)
fixes its shape: a closed catalogue of named driver-reported failure
conditions (bus errors, queue overrun, no message available, handle
invalid, hardware not responding are the named examples) plus one
`Unknown` fallback. -/
inductive PcanError where
  | BusError
  | QueueOverrun
  | NoMessage
  | IllegalHandle
  | HardwareNotResponding
  | Unknown
deriving DecidableEq, Repr

/-- Modelled from the spec: `PcanOkError`, the decoded driver status —
either the single success value or a typed failure. -/
inductive PcanOkError where
  | Ok
  | Err (e : PcanError)
deriving DecidableEq, Repr

/-- Modelled from the spec: the single driver success status code
(PCAN-Basic's `PCAN_ERROR_OK = 0`). -/
def PCAN_ERROR_OK : Nat := 0

/-- Modelled from the spec: the fixed status-code-to-error lookup table
(§1 treats the numeric table as an excluded fixed lookup; the codes here
are representative, the claims depend only on the table's shape). -/
def errorCatalogue : List (Nat × PcanError) :=
  [(0x01, .BusError), (0x02, .QueueOverrun), (0x20, .NoMessage),
   (0x1C00, .IllegalHandle), (0x300, .HardwareNotResponding)]

/-- Modelled from the spec: `PcanOkError::try_from(status)` — `Ok` for the
success code, the catalogued typed error for a recognised failure code,
and no decoding (Rust `Err(_)`) otherwise. -/
def PcanOkError.tryFrom (code : Nat) : Option PcanOkError :=
  if code = PCAN_ERROR_OK then
    some .Ok
  else
    match (errorCatalogue.filter (fun p => p.1 = code)).head? with
    | some p => some (.Err p.2)
    | none => none

/- The status-decoding match repeated by every fallible operation in
lib.rs (e.g. lines 425-429, 578-582, 653-657):
`match PcanOkError::try_from(code) { Ok(Ok) => Ok(v), Ok(Err(e)) => Err(e),
Err(_) => Err(PcanError::Unknown) }`. -/
def decodeStatus {α : Type} (code : Nat) (okValue : α) : Except PcanError α :=
  match PcanOkError.tryFrom code with
  | some .Ok => .ok okValue
  | some (.Err e) => .error e
  | none => .error .Unknown

/- Timestamp, src/src/lib.rs lines 242-257. -/
structure Timestamp where
  micros : Nat
  millis : Nat
  millis_overflow : Nat
deriving DecidableEq, Repr

def Timestamp.defaultTs : Timestamp :=
  { micros := 0, millis := 0, millis_overflow := 0 }

/- `UsbCanSocket`, src/src/can/usb.rs lines 17-20 (the lib.rs socket
types at lines 348-465 have the same single-field shape). -/
structure UsbCanSocket where
  handle : Nat
deriving DecidableEq, Repr

/- Foreign calls made against the driver boundary, for tracing which
operations touch the handle. -/
inductive ForeignCall where
  | init (handle : Nat)
  | uninit (handle : Nat)
  | readCall (handle : Nat)
  | writeCall (handle : Nat)
deriving DecidableEq, Repr

/- `UsbCanSocket::open`, src/src/can/usb.rs lines 23-32: one foreign
`CAN_Initialize` call, then the shared status decode.  The status code the
foreign call returns is passed in as `code`; the list is the exact
sequence of foreign calls the function makes. -/
def UsbCanSocket.openSocket (handle : Nat) (code : Nat) :
    Except PcanError UsbCanSocket × List ForeignCall :=
  (decodeStatus code { handle := handle }, [.init handle])

/- `UsbCanSocket::new`, src/src/lib.rs lines 420-431: identical body. -/
def UsbCanSocket.newSocket (handle : Nat) (code : Nat) :
    Except PcanError UsbCanSocket × List ForeignCall :=
  (decodeStatus code { handle := handle }, [.init handle])

/- The `Drop` impl for `UsbCanSocket`, src/src/can/usb.rs lines 37-41:
its body makes exactly one foreign `CAN_Uninitialize(self.handle)` call. -/
def UsbCanSocket.dropGlue (s : UsbCanSocket) : List ForeignCall :=
  [.uninit s.handle]

/- The `Drop` impl for `SocketDropWrapper<T>`, src/src/lib.rs lines
553-561: one `CAN_Uninitialize(self.socket.handle())` call.  With the
handle abstracted, it is the same glue as `UsbCanSocket.dropGlue`; but
`SocketDropWrapper` is a private struct that no code in the source ever
constructs, so this glue is never run. -/
def SocketDropWrapper.dropGlue (handle : Nat) : List ForeignCall :=
  [.uninit handle]

/- `CanSocket`, src/src/lib.rs lines 450-452.  The other six lib.rs
socket types (Isa/Dng/Pci/Pcc/Usb/Lan, lines 348-448) are identical
single-handle records with the same `new` body; none of the seven
implements `Drop`. -/
structure CanSocket where
  handle : Nat
deriving DecidableEq, Repr

/- `CanSocket::new`, src/src/lib.rs lines 455-465 (the same body as
every other lib.rs socket constructor): one foreign `CAN_Initialize`
call, then the shared status decode. -/
def CanSocket.newSocket (handle : Nat) (code : Nat) :
    Except PcanError CanSocket × List ForeignCall :=
  (decodeStatus code { handle := handle }, [.init handle])

/- Dropping a lib.rs socket value: lib.rs declares no `Drop` impl for
any of its seven socket types, and `SocketDropWrapper` — the only lib.rs
type with a `Drop` impl — is never constructed; so the drop of a lib.rs
socket runs no code and makes no foreign call. -/
def CanSocket.dropGlue (_s : CanSocket) : List ForeignCall :=
  []

/- The blanket `CanRead::read` impl, src/src/lib.rs lines 566-583: one
foreign `CAN_Read` filling a default frame and timestamp, then the shared
decode.  The foreign outcome (status code and the buffers the driver
wrote) is passed in. -/
def canRead (s : UsbCanSocket) (code : Nat) (frame : CanFrame) (ts : Timestamp) :
    Except PcanError (CanFrame × Timestamp) × List ForeignCall :=
  (decodeStatus code (frame, ts), [.readCall s.handle])

/- The blanket `CanRead::read_frame` impl, src/src/lib.rs lines 585-601. -/
def canReadFrame (s : UsbCanSocket) (code : Nat) (frame : CanFrame) :
    Except PcanError CanFrame × List ForeignCall :=
  (decodeStatus code frame, [.readCall s.handle])

/- The blanket `CanReadFd::read` impl, src/src/lib.rs lines 607-624: same
shape, 64-bit tick count instead of the three-field timestamp. -/
def canReadFd (s : UsbCanSocket) (code : Nat) (frame : CanFdFrame) (ts : Nat) :
    Except PcanError (CanFdFrame × Nat) × List ForeignCall :=
  (decodeStatus code (frame, ts), [.readCall s.handle])

/- The blanket `CanReadFd::read_frame` impl, src/src/lib.rs lines 626-642. -/
def canReadFdFrame (s : UsbCanSocket) (code : Nat) (frame : CanFdFrame) :
    Except PcanError CanFdFrame × List ForeignCall :=
  (decodeStatus code frame, [.readCall s.handle])

/- The blanket `CanWrite::write` impl, src/src/lib.rs lines 647-659. -/
def canWrite (s : UsbCanSocket) (code : Nat) (_frame : CanFrame) :
    Except PcanError Unit × List ForeignCall :=
  (decodeStatus code (), [.writeCall s.handle])

/- The blanket `CanWriteFd::write` impl, src/src/lib.rs lines 663-675. -/
def canWriteFd (s : UsbCanSocket) (code : Nat) (_frame : CanFdFrame) :
    Except PcanError Unit × List ForeignCall :=
  (decodeStatus code (), [.writeCall s.handle])

/- Lifecycle events of a socket value.  Construction, moves and the end
of the owning value's lifetime are the only events that could touch the
handle; Rust runs a type's `Drop` glue exactly once, at the lifetime's
end, and a move transfers ownership without running it.  The usb.rs
`UsbCanSocket` (from `open`) and the lib.rs socket types (from `new`,
represented by `CanSocket`) are distinct types: only the former has a
`Drop` impl. -/
inductive SocketEvent where
  | opened (code : Nat) (handle : Nat)
  | newOpened (code : Nat) (handle : Nat)
  | moved (s : UsbCanSocket)
  | movedNew (s : CanSocket)
  | useRead (s : UsbCanSocket) (code : Nat)
  | useWrite (s : UsbCanSocket) (code : Nat)
  | dropped (s : UsbCanSocket)
  | droppedNew (s : CanSocket)
deriving DecidableEq, Repr

/- The foreign calls each lifecycle event performs, taken from the
corresponding source function: a `dropped` usb.rs socket runs its `Drop`
impl (one release), a `droppedNew` lib.rs socket has no `Drop` impl and
runs nothing. -/
def SocketEvent.calls : SocketEvent → List ForeignCall
  | .opened code handle => (UsbCanSocket.openSocket handle code).2
  | .newOpened code handle => (CanSocket.newSocket handle code).2
  | .moved _ => []
  | .movedNew _ => []
  | .useRead s code => (canReadFrame s code CanFrame.defaultFrame).2
  | .useWrite s code => (canWrite s code CanFrame.defaultFrame).2
  | .dropped s => s.dropGlue
  | .droppedNew s => s.dropGlue

/- The full foreign-call trace of a sequence of lifecycle events. -/
def traceCalls (evs : List SocketEvent) : List ForeignCall :=
  (evs.map SocketEvent.calls).flatten

/- Count of release calls for a handle in a trace. -/
def countUninit (h : Nat) (calls : List ForeignCall) : Nat :=
  calls.countP (fun c => c = .uninit h)

/- Count of lifetime-end events of usb.rs socket values carrying a
handle (the only socket type with a `Drop` impl). -/
def countDrops (h : Nat) (evs : List SocketEvent) : Nat :=
  evs.countP (fun e => match e with
    | .dropped s => s.handle = h
    | _ => false)

/-! ## Theorems -/

lemma canFrame_data_of_padded (i m : Nat) (d pad : List Nat) :
    CanFrame.data { frame := { ID := i, MSGTYPE := m, LEN := d.length, DATA := d ++ pad } }
      = some d := by
  simp [CanFrame.data, List.take_left, Nat.le_add_right]

lemma canFdFrame_data_of_padded (i m : Nat) (d pad : List Nat) :
    CanFdFrame.data { frame := { ID := i, MSGTYPE := m, DLC := d.length, DATA := d ++ pad } }
      = some d := by
  simp [CanFdFrame.data, List.take_left, Nat.le_add_right]

/-- C1: for every identifier, addressing mode and payload, `CanFrame::new`
returns `Ok` with `data()` equal to the payload when the payload length is
at most 8, and `Err(TooMuchData)` when it exceeds 8; `CanFdFrame::new`
behaves the same at the 64-byte bound. -/
theorem frame_new_bound_and_data :
    (∀ (i : Nat) (mt : MessageType) (d : List Nat), d.length ≤ 8 →
      ∃ f, CanFrame.new i mt d = .ok f ∧ f.data = some d) ∧
    (∀ (i : Nat) (mt : MessageType) (d : List Nat), d.length > 8 →
      CanFrame.new i mt d = .error .TooMuchData) ∧
    (∀ (i : Nat) (mt : MessageType) (d : List Nat), d.length ≤ 64 →
      ∃ f, CanFdFrame.new i mt d = .ok f ∧ f.data = some d) ∧
    (∀ (i : Nat) (mt : MessageType) (d : List Nat), d.length > 64 →
      CanFdFrame.new i mt d = .error .TooMuchData) := by
  refine ⟨?_, ?_, ?_, ?_⟩
  · intro i mt d hd
    have hgt : ¬ d.length > CanFrame.MAX_DLC := by
      simpa [CanFrame.MAX_DLC] using hd
    refine ⟨⟨⟨i &&& STANDARD_MASK, PCAN_MESSAGE_STANDARD, d.length,
      d ++ List.replicate (8 - d.length) 0⟩⟩, ?_, canFrame_data_of_padded _ _ _ _⟩
    cases mt <;> simp [CanFrame.new, hgt]
  · intro i mt d hd
    have hgt : d.length > CanFrame.MAX_DLC := by
      simpa [CanFrame.MAX_DLC] using hd
    simp [CanFrame.new, hgt]
  · intro i mt d hd
    have hgt : ¬ d.length > CanFdFrame.MAX_DLC := by
      simpa [CanFdFrame.MAX_DLC] using hd
    refine ⟨⟨⟨i &&& STANDARD_MASK, PCAN_MESSAGE_STANDARD, d.length,
      d ++ List.replicate (64 - d.length) 0⟩⟩, ?_, canFdFrame_data_of_padded _ _ _ _⟩
    cases mt <;> simp [CanFdFrame.new, hgt]
  · intro i mt d hd
    have hgt : d.length > CanFdFrame.MAX_DLC := by
      simpa [CanFdFrame.MAX_DLC] using hd
    simp [CanFdFrame.new, hgt]

theorem frame_new_bound_and_data_witness :
    (∃ f, CanFrame.new 0x20 MessageType.Standard [0, 1, 2] = .ok f ∧
      f.data = some [0, 1, 2]) ∧
    CanFrame.new 0x20 MessageType.Standard [0, 1, 2, 3, 4, 5, 6, 7, 8]
      = .error .TooMuchData ∧
    (∃ f, CanFdFrame.new 0x20 MessageType.Extended (List.replicate 64 7) = .ok f ∧
      f.data = some (List.replicate 64 7)) ∧
    CanFdFrame.new 0x20 MessageType.Extended (List.replicate 65 7)
      = .error .TooMuchData :=
  ⟨frame_new_bound_and_data.1 0x20 .Standard [0, 1, 2] (by decide),
   frame_new_bound_and_data.2.1 0x20 .Standard [0, 1, 2, 3, 4, 5, 6, 7, 8] (by decide),
   frame_new_bound_and_data.2.2.1 0x20 .Extended (List.replicate 64 7) (by simp),
   frame_new_bound_and_data.2.2.2 0x20 .Extended (List.replicate 65 7) (by simp)⟩

/-- C2: constructing a frame with `MessageType::Extended` yields exactly
the same result as constructing it with `MessageType::Standard` — the
`Extended` branch masks the identifier with the standard mask and stores
the standard message-type flag — so an Extended-constructed frame is
indistinguishable from a Standard-constructed one under every accessor
and under equality.  Holds for both `CanFrame::new` and `CanFdFrame::new`. -/
theorem extended_construction_equals_standard :
    (∀ (i : Nat) (d : List Nat),
      CanFrame.new i MessageType.Extended d = CanFrame.new i MessageType.Standard d) ∧
    (∀ (i : Nat) (d : List Nat),
      CanFdFrame.new i MessageType.Extended d = CanFdFrame.new i MessageType.Standard d) ∧
    (∀ (i : Nat) (d : List Nat) (f : CanFrame),
      CanFrame.new i MessageType.Extended d = .ok f →
        f.frame.ID = i &&& STANDARD_MASK ∧ f.frame.MSGTYPE = PCAN_MESSAGE_STANDARD) ∧
    (∀ (i : Nat) (d : List Nat) (f : CanFdFrame),
      CanFdFrame.new i MessageType.Extended d = .ok f →
        f.frame.ID = i &&& STANDARD_MASK ∧ f.frame.MSGTYPE = PCAN_MESSAGE_STANDARD) := by
  refine ⟨fun i d => rfl, fun i d => rfl, ?_, ?_⟩
  · intro i d f hf
    by_cases hgt : d.length > CanFrame.MAX_DLC
    · simp [CanFrame.new, hgt] at hf
    · simp [CanFrame.new, hgt] at hf
      simp [← hf]
  · intro i d f hf
    by_cases hgt : d.length > CanFdFrame.MAX_DLC
    · simp [CanFdFrame.new, hgt] at hf
    · simp [CanFdFrame.new, hgt] at hf
      simp [← hf]

theorem extended_construction_equals_standard_witness :
    ∃ f, CanFrame.new 0x1234 MessageType.Extended [9, 9] = .ok f ∧
      f.frame.ID = 0x1234 &&& STANDARD_MASK ∧ f.frame.MSGTYPE = PCAN_MESSAGE_STANDARD := by
  have h : CanFrame.new 0x1234 MessageType.Extended [9, 9]
      = .ok ⟨⟨0x1234 &&& STANDARD_MASK, PCAN_MESSAGE_STANDARD, 2, [9, 9, 0, 0, 0, 0, 0, 0]⟩⟩ := by
    rfl
  exact ⟨_, h, extended_construction_equals_standard.2.2.1 0x1234 [9, 9] _ h⟩

/-- C10: although `FrameConstructionError` has a `CanIdMessageTypeMismatch`
variant, every call to `CanFrame::new` or `CanFdFrame::new` either succeeds
or fails with `TooMuchData`; `CanIdMessageTypeMismatch` is never returned. -/
theorem frame_new_never_mismatch :
    (∀ (i : Nat) (mt : MessageType) (d : List Nat),
      (∃ f, CanFrame.new i mt d = .ok f) ∨
        CanFrame.new i mt d = .error .TooMuchData) ∧
    (∀ (i : Nat) (mt : MessageType) (d : List Nat),
      (∃ f, CanFdFrame.new i mt d = .ok f) ∨
        CanFdFrame.new i mt d = .error .TooMuchData) ∧
    (∀ (i : Nat) (mt : MessageType) (d : List Nat),
      CanFrame.new i mt d ≠ .error .CanIdMessageTypeMismatch) ∧
    (∀ (i : Nat) (mt : MessageType) (d : List Nat),
      CanFdFrame.new i mt d ≠ .error .CanIdMessageTypeMismatch) := by
  have h1 : ∀ (i : Nat) (mt : MessageType) (d : List Nat),
      (∃ f, CanFrame.new i mt d = .ok f) ∨
        CanFrame.new i mt d = .error .TooMuchData := by
    intro i mt d
    by_cases hgt : d.length > CanFrame.MAX_DLC
    · right; simp [CanFrame.new, hgt]
    · left
      exact ⟨⟨⟨i &&& STANDARD_MASK, PCAN_MESSAGE_STANDARD, d.length,
        d ++ List.replicate (8 - d.length) 0⟩⟩, by cases mt <;> simp [CanFrame.new, hgt]⟩
  have h2 : ∀ (i : Nat) (mt : MessageType) (d : List Nat),
      (∃ f, CanFdFrame.new i mt d = .ok f) ∨
        CanFdFrame.new i mt d = .error .TooMuchData := by
    intro i mt d
    by_cases hgt : d.length > CanFdFrame.MAX_DLC
    · right; simp [CanFdFrame.new, hgt]
    · left
      exact ⟨⟨⟨i &&& STANDARD_MASK, PCAN_MESSAGE_STANDARD, d.length,
        d ++ List.replicate (64 - d.length) 0⟩⟩, by cases mt <;> simp [CanFdFrame.new, hgt]⟩
  refine ⟨h1, h2, ?_, ?_⟩
  · intro i mt d hbad
    rcases h1 i mt d with ⟨f, hf⟩ | hf <;> simp [hbad] at hf
  · intro i mt d hbad
    rcases h2 i mt d with ⟨f, hf⟩ | hf <;> simp [hbad] at hf

/-- C7: a classic frame built with identifier 0x7FF_FFFF in Standard mode
has `can_id() = 0x7FF`, and for every frame (classic or FD) the mask of
the branch `can_id()` took is idempotent on its result: re-applying it
returns the same value. -/
theorem can_id_mask_idempotent :
    (∀ (d : List Nat) (f : CanFrame),
      CanFrame.new 0x7FFFFFF MessageType.Standard d = .ok f → f.can_id = 0x7FF) ∧
    (∀ f : CanFrame,
      (if f.is_standard_frame then f.can_id &&& STANDARD_MASK
       else f.can_id &&& EXTENDED_MASK) = f.can_id) ∧
    (∀ f : CanFdFrame,
      (if f.is_standard_frame then f.can_id &&& STANDARD_MASK
       else f.can_id &&& EXTENDED_MASK) = f.can_id) := by
  refine ⟨?_, ?_, ?_⟩
  · intro d f hf
    by_cases hgt : d.length > CanFrame.MAX_DLC
    · simp [CanFrame.new, hgt] at hf
    · simp [CanFrame.new, hgt] at hf
      simp [← hf, CanFrame.can_id, CanFrame.is_standard_frame,
        PCAN_MESSAGE_STANDARD, STANDARD_MASK, EXTENDED_MASK]
      decide
  · intro f
    by_cases h : f.is_standard_frame <;>
      simp [CanFrame.can_id, h, Nat.and_assoc]
  · intro f
    by_cases h : f.is_standard_frame <;>
      simp [CanFdFrame.can_id, h, Nat.and_assoc]

theorem can_id_mask_idempotent_witness :
    CanFrame.new 0x7FFFFFF MessageType.Standard []
        = .ok ⟨⟨0x7FFFFFF &&& STANDARD_MASK, PCAN_MESSAGE_STANDARD, 0, List.replicate 8 0⟩⟩ ∧
    CanFrame.can_id
        ⟨⟨0x7FFFFFF &&& STANDARD_MASK, PCAN_MESSAGE_STANDARD, 0, List.replicate 8 0⟩⟩
      = 0x7FF :=
  ⟨rfl, can_id_mask_idempotent.1 [] _ rfl⟩

/-- C6: for every frame, whatever message-type flag bits its stored
metadata carries, `can_id()` is total and returns the stored identifier
masked with the standard mask when `is_standard_frame()` holds and with
the extended mask otherwise; in particular it never exceeds
`EXTENDED_MASK = 0x1FFFFFFF`. -/
theorem can_id_defined_and_bounded :
    (∀ f : CanFrame, f.can_id ≤ EXTENDED_MASK ∧
      (f.is_standard_frame = true → f.can_id = f.frame.ID &&& STANDARD_MASK) ∧
      (f.is_standard_frame = false → f.can_id = f.frame.ID &&& EXTENDED_MASK)) ∧
    (∀ f : CanFdFrame, f.can_id ≤ EXTENDED_MASK ∧
      (f.is_standard_frame = true → f.can_id = f.frame.ID &&& STANDARD_MASK) ∧
      (f.is_standard_frame = false → f.can_id = f.frame.ID &&& EXTENDED_MASK)) := by
  constructor
  · intro f
    refine ⟨?_, ?_, ?_⟩
    · by_cases h : f.is_standard_frame
      · calc f.can_id = f.frame.ID &&& STANDARD_MASK := by simp [CanFrame.can_id, h]
          _ ≤ STANDARD_MASK := Nat.and_le_right
          _ ≤ EXTENDED_MASK := by decide
      · calc f.can_id = f.frame.ID &&& EXTENDED_MASK := by simp [CanFrame.can_id, h]
          _ ≤ EXTENDED_MASK := Nat.and_le_right
    · intro h; simp [CanFrame.can_id, h]
    · intro h; simp [CanFrame.can_id, h]
  · intro f
    refine ⟨?_, ?_, ?_⟩
    · by_cases h : f.is_standard_frame
      · calc f.can_id = f.frame.ID &&& STANDARD_MASK := by simp [CanFdFrame.can_id, h]
          _ ≤ STANDARD_MASK := Nat.and_le_right
          _ ≤ EXTENDED_MASK := by decide
      · calc f.can_id = f.frame.ID &&& EXTENDED_MASK := by simp [CanFdFrame.can_id, h]
          _ ≤ EXTENDED_MASK := Nat.and_le_right
    · intro h; simp [CanFdFrame.can_id, h]
    · intro h; simp [CanFdFrame.can_id, h]

theorem can_id_defined_and_bounded_witness :
    CanFrame.can_id ⟨⟨0xFFFFFFFF, 3, 0, List.replicate 8 0⟩⟩ ≤ EXTENDED_MASK ∧
    CanFrame.can_id ⟨⟨0xFFFFFFFF, 3, 0, List.replicate 8 0⟩⟩
      = 0xFFFFFFFF &&& EXTENDED_MASK :=
  ⟨(can_id_defined_and_bounded.1 ⟨⟨0xFFFFFFFF, 3, 0, List.replicate 8 0⟩⟩).1,
   (can_id_defined_and_bounded.1 ⟨⟨0xFFFFFFFF, 3, 0, List.replicate 8 0⟩⟩).2.2 rfl⟩

/-- C5: frame equality compares the identifier, the length, the
message-type flag bits, and only the first `length` bytes of the payload
buffer: two frames (classic with its 8-byte buffer, FD with its 64-byte
buffer) agreeing on those compare equal even when the buffer bytes past
the length differ. -/
theorem frame_eq_ignores_padding :
    (∀ a b : CanFrame,
      a.frame.DATA.length = 8 → b.frame.DATA.length = 8 → a.frame.LEN ≤ 8 →
      a.frame.ID = b.frame.ID → a.frame.LEN = b.frame.LEN →
      a.frame.MSGTYPE = b.frame.MSGTYPE →
      a.frame.DATA.take a.frame.LEN = b.frame.DATA.take a.frame.LEN →
      CanFrame.beq a b = some true) ∧
    (∀ a b : CanFdFrame,
      a.frame.DATA.length = 64 → b.frame.DATA.length = 64 → a.frame.DLC ≤ 64 →
      a.frame.ID = b.frame.ID → a.frame.DLC = b.frame.DLC →
      a.frame.MSGTYPE = b.frame.MSGTYPE →
      a.frame.DATA.take a.frame.DLC = b.frame.DATA.take a.frame.DLC →
      CanFdFrame.beq a b = some true) := by
  constructor
  · intro a b hA hB hlen hid hl hmt hpre
    have ha' : a.frame.LEN ≤ a.frame.DATA.length := by rw [hA]; exact hlen
    have hb' : a.frame.LEN ≤ b.frame.DATA.length := by rw [hB]; exact hlen
    simp [CanFrame.beq, hid, hmt, CanFrame.data, ha', hb', ← hl, hpre]
  · intro a b hA hB hlen hid hl hmt hpre
    have ha' : a.frame.DLC ≤ a.frame.DATA.length := by rw [hA]; exact hlen
    have hb' : a.frame.DLC ≤ b.frame.DATA.length := by rw [hB]; exact hlen
    simp [CanFdFrame.beq, hid, hmt, CanFdFrame.data, ha', hb', ← hl, hpre]

theorem frame_eq_ignores_padding_witness :
    CanFrame.beq ⟨⟨0x20, 0, 2, [1, 2, 3, 4, 5, 6, 7, 8]⟩⟩
        ⟨⟨0x20, 0, 2, [1, 2, 9, 9, 9, 9, 9, 9]⟩⟩ = some true :=
  frame_eq_ignores_padding.1
    ⟨⟨0x20, 0, 2, [1, 2, 3, 4, 5, 6, 7, 8]⟩⟩
    ⟨⟨0x20, 0, 2, [1, 2, 9, 9, 9, 9, 9, 9]⟩⟩
    (by decide) (by decide) (by decide) rfl rfl rfl (by decide)

/- The frames reachable through the public constructors and through
writes via `mut_data`: `new` (with any accepted payload), `default`, and
overwriting the meaningful prefix of a reachable frame. -/
inductive ReachCanFrame : CanFrame → Prop where
  | ofNew : ∀ (i : Nat) (mt : MessageType) (d : List Nat) (f : CanFrame),
      CanFrame.new i mt d = .ok f → ReachCanFrame f
  | ofDefault : ReachCanFrame CanFrame.defaultFrame
  | ofWrite : ∀ (f : CanFrame) (nb : List Nat) (g : CanFrame),
      ReachCanFrame f → CanFrame.writeData f nb = some g → ReachCanFrame g

inductive ReachCanFdFrame : CanFdFrame → Prop where
  | ofNew : ∀ (i : Nat) (mt : MessageType) (d : List Nat) (f : CanFdFrame),
      CanFdFrame.new i mt d = .ok f → ReachCanFdFrame f
  | ofDefault : ReachCanFdFrame CanFdFrame.defaultFrame
  | ofWrite : ∀ (f : CanFdFrame) (nb : List Nat) (g : CanFdFrame),
      ReachCanFdFrame f → CanFdFrame.writeData f nb = some g → ReachCanFdFrame g

lemma reachCanFrame_inv (f : CanFrame) (h : ReachCanFrame f) :
    f.frame.LEN ≤ 8 ∧ f.frame.DATA.length = 8 := by
  induction h with
  | ofNew i mt d f hf =>
    by_cases hgt : d.length > CanFrame.MAX_DLC
    · cases mt <;> simp [CanFrame.new, hgt] at hf
    · have hle : d.length ≤ 8 := by simpa [CanFrame.MAX_DLC] using hgt
      cases mt <;> simp [CanFrame.new, hgt] at hf <;>
        simp [← hf, List.length_append, List.length_replicate] <;> omega
  | ofDefault => simp [CanFrame.defaultFrame]
  | ofWrite f nb g hr hw ih =>
    by_cases hc : f.frame.LEN ≤ f.frame.DATA.length ∧ nb.length = f.frame.LEN
    · simp [CanFrame.writeData, hc] at hw
      have := ih
      simp [← hw, List.length_append, List.length_drop, hc.2]
      omega
    · simp [CanFrame.writeData, hc] at hw

lemma reachCanFdFrame_inv (f : CanFdFrame) (h : ReachCanFdFrame f) :
    f.frame.DLC ≤ 64 ∧ f.frame.DATA.length = 64 := by
  induction h with
  | ofNew i mt d f hf =>
    by_cases hgt : d.length > CanFdFrame.MAX_DLC
    · cases mt <;> simp [CanFdFrame.new, hgt] at hf
    · have hle : d.length ≤ 64 := by simpa [CanFdFrame.MAX_DLC] using hgt
      cases mt <;> simp [CanFdFrame.new, hgt] at hf <;>
        simp [← hf, List.length_append, List.length_replicate] <;> omega
  | ofDefault => simp [CanFdFrame.defaultFrame]
  | ofWrite f nb g hr hw ih =>
    by_cases hc : f.frame.DLC ≤ f.frame.DATA.length ∧ nb.length = f.frame.DLC
    · simp [CanFdFrame.writeData, hc] at hw
      have := ih
      simp [← hw, List.length_append, List.length_drop, hc.2]
      omega
    · simp [CanFdFrame.writeData, hc] at hw

/-- C9: every classic frame reachable through `new`, `default` or writes
through `mut_data` satisfies `dlc() ≤ 8` (64 for FD frames); under that
invariant `data()` never indexes out of bounds and returns exactly
`dlc()` bytes, and `mut_data` accepts any same-length overwrite of the
meaningful prefix, preserving the invariant. -/
theorem reachable_frame_invariant :
    (∀ f : CanFrame, ReachCanFrame f →
      f.dlc ≤ 8 ∧
      (∃ l, f.data = some l ∧ l.length = f.dlc) ∧
      (∀ nb : List Nat, nb.length = f.dlc →
        ∃ g, f.writeData nb = some g ∧ ReachCanFrame g ∧ g.dlc = f.dlc)) ∧
    (∀ f : CanFdFrame, ReachCanFdFrame f →
      f.dlc ≤ 64 ∧
      (∃ l, f.data = some l ∧ l.length = f.dlc) ∧
      (∀ nb : List Nat, nb.length = f.dlc →
        ∃ g, f.writeData nb = some g ∧ ReachCanFdFrame g ∧ g.dlc = f.dlc)) := by
  constructor
  · intro f hr
    obtain ⟨h1, h2⟩ := reachCanFrame_inv f hr
    have hle : f.frame.LEN ≤ f.frame.DATA.length := by rw [h2]; exact h1
    refine ⟨h1, ⟨f.frame.DATA.take f.frame.LEN, ?_, ?_⟩, ?_⟩
    · simp [CanFrame.data, hle]
    · simp [CanFrame.dlc, List.length_take]
      omega
    · intro nb hnb
      have hc : f.frame.LEN ≤ f.frame.DATA.length ∧ nb.length = f.frame.LEN :=
        ⟨hle, hnb⟩
      refine ⟨⟨⟨f.frame.ID, f.frame.MSGTYPE, f.frame.LEN,
        nb ++ f.frame.DATA.drop f.frame.LEN⟩⟩, ?_, ?_, rfl⟩
      · simp [CanFrame.writeData, hc]
      · exact ReachCanFrame.ofWrite f nb _ hr (by simp [CanFrame.writeData, hc])
  · intro f hr
    obtain ⟨h1, h2⟩ := reachCanFdFrame_inv f hr
    have hle : f.frame.DLC ≤ f.frame.DATA.length := by rw [h2]; exact h1
    refine ⟨h1, ⟨f.frame.DATA.take f.frame.DLC, ?_, ?_⟩, ?_⟩
    · simp [CanFdFrame.data, hle]
    · simp [CanFdFrame.dlc, List.length_take]
      omega
    · intro nb hnb
      have hc : f.frame.DLC ≤ f.frame.DATA.length ∧ nb.length = f.frame.DLC :=
        ⟨hle, hnb⟩
      refine ⟨⟨⟨f.frame.ID, f.frame.MSGTYPE, f.frame.DLC,
        nb ++ f.frame.DATA.drop f.frame.DLC⟩⟩, ?_, ?_, rfl⟩
      · simp [CanFdFrame.writeData, hc]
      · exact ReachCanFdFrame.ofWrite f nb _ hr (by simp [CanFdFrame.writeData, hc])

theorem reachable_frame_invariant_witness :
    CanFrame.dlc CanFrame.defaultFrame ≤ 8 ∧
    (∃ l, CanFrame.data CanFrame.defaultFrame = some l ∧
      l.length = CanFrame.dlc CanFrame.defaultFrame) ∧
    CanFdFrame.dlc CanFdFrame.defaultFrame ≤ 64 :=
  ⟨(reachable_frame_invariant.1 CanFrame.defaultFrame ReachCanFrame.ofDefault).1,
   (reachable_frame_invariant.1 CanFrame.defaultFrame ReachCanFrame.ofDefault).2.1,
   (reachable_frame_invariant.2 CanFdFrame.defaultFrame ReachCanFdFrame.ofDefault).1⟩

lemma decodeStatus_ok_iff {α : Type} (code : Nat) (v : α) :
    decodeStatus code v = .ok v ↔ code = PCAN_ERROR_OK := by
  constructor
  · intro h
    by_contra hne
    rw [decodeStatus, PcanOkError.tryFrom, if_neg hne] at h
    rcases hh : (errorCatalogue.filter (fun p => p.1 = code)).head? with _ | p <;>
      simp [hh] at h
  · intro h
    simp [decodeStatus, PcanOkError.tryFrom, h]

lemma decodeStatus_catalogued {α : Type} (code : Nat) (v : α) (e : PcanError)
    (hne : code ≠ PCAN_ERROR_OK) (hmem : (code, e) ∈ errorCatalogue) :
    decodeStatus code v = .error e := by
  fin_cases hmem <;> simp_all <;> rfl

lemma decodeStatus_unknown {α : Type} (code : Nat) (v : α)
    (hne : code ≠ PCAN_ERROR_OK) (hout : ∀ p ∈ errorCatalogue, p.1 ≠ code) :
    decodeStatus code v = .error .Unknown := by
  have hnil : errorCatalogue.filter (fun p => p.1 = code) = [] := by
    refine List.filter_eq_nil_iff.mpr ?_
    intro p hp
    simp [hout p hp]
  rw [decodeStatus, PcanOkError.tryFrom, if_neg hne, hnil]
  rfl

/-- C3: every fallible operation — socket construction (`new`/`open`),
classic and FD `read` and `read_frame`, classic and FD `write` — decodes
the foreign status through the one shared rule `decodeStatus`: `Ok` with
the operation's value exactly when the code is the success value, the
catalogued typed error when the code is recognised, `Unknown` otherwise;
and each operation performs exactly one foreign call (no internal retry). -/
theorem shared_status_decoding :
    (∀ (code : Nat) (v : Nat),
      (decodeStatus code v = .ok v ↔ code = PCAN_ERROR_OK) ∧
      (code ≠ PCAN_ERROR_OK → ∀ e, (code, e) ∈ errorCatalogue →
        decodeStatus code v = .error e) ∧
      (code ≠ PCAN_ERROR_OK → (∀ p ∈ errorCatalogue, p.1 ≠ code) →
        decodeStatus code v = .error PcanError.Unknown)) ∧
    (∀ h code, (UsbCanSocket.newSocket h code).1 = decodeStatus code ⟨h⟩ ∧
      (UsbCanSocket.newSocket h code).2 = [.init h]) ∧
    (∀ h code, (UsbCanSocket.openSocket h code).1 = decodeStatus code ⟨h⟩ ∧
      (UsbCanSocket.openSocket h code).2 = [.init h]) ∧
    (∀ s code fr ts, (canRead s code fr ts).1 = decodeStatus code (fr, ts) ∧
      (canRead s code fr ts).2 = [.readCall s.handle]) ∧
    (∀ s code fr, (canReadFrame s code fr).1 = decodeStatus code fr ∧
      (canReadFrame s code fr).2 = [.readCall s.handle]) ∧
    (∀ s code fr ts, (canReadFd s code fr ts).1 = decodeStatus code (fr, ts) ∧
      (canReadFd s code fr ts).2 = [.readCall s.handle]) ∧
    (∀ s code fr, (canReadFdFrame s code fr).1 = decodeStatus code fr ∧
      (canReadFdFrame s code fr).2 = [.readCall s.handle]) ∧
    (∀ s code fr, (canWrite s code fr).1 = decodeStatus code () ∧
      (canWrite s code fr).2 = [.writeCall s.handle]) ∧
    (∀ s code fr, (canWriteFd s code fr).1 = decodeStatus code () ∧
      (canWriteFd s code fr).2 = [.writeCall s.handle]) := by
  refine ⟨?_, fun h code => ⟨rfl, rfl⟩, fun h code => ⟨rfl, rfl⟩,
    fun s code fr ts => ⟨rfl, rfl⟩, fun s code fr => ⟨rfl, rfl⟩,
    fun s code fr ts => ⟨rfl, rfl⟩, fun s code fr => ⟨rfl, rfl⟩,
    fun s code fr => ⟨rfl, rfl⟩, fun s code fr => ⟨rfl, rfl⟩⟩
  intro code v
  exact ⟨decodeStatus_ok_iff code v,
    fun hne e hmem => decodeStatus_catalogued code v e hne hmem,
    fun hne hout => decodeStatus_unknown code v hne hout⟩

theorem shared_status_decoding_witness :
    decodeStatus PCAN_ERROR_OK (7 : Nat) = .ok 7 ∧
    decodeStatus 0x20 (7 : Nat) = .error PcanError.NoMessage ∧
    decodeStatus 0x9999 (7 : Nat) = .error PcanError.Unknown :=
  ⟨(shared_status_decoding.1 PCAN_ERROR_OK 7).1.mpr rfl,
   (shared_status_decoding.1 0x20 7).2.1 (by decide) PcanError.NoMessage (by decide),
   (shared_status_decoding.1 0x9999 7).2.2 (by decide) (by decide)⟩

/-- C8: when the foreign initialize call reports any non-success status,
`UsbCanSocket::open` (and the identical `UsbCanSocket::new`) returns the
decoded typed error — the catalogued error for a recognised code,
`Unknown` otherwise — produces no socket value, and performs no release
call: its foreign-call list contains no uninitialize for any handle. -/
theorem open_failure_releases_nothing :
    ∀ (h code : Nat), code ≠ PCAN_ERROR_OK →
      (∃ e : PcanError, (UsbCanSocket.openSocket h code).1 = .error e ∧
        ((code, e) ∈ errorCatalogue ∨ e = PcanError.Unknown)) ∧
      (∀ s, (UsbCanSocket.openSocket h code).1 ≠ .ok s) ∧
      (∀ h', ForeignCall.uninit h' ∉ (UsbCanSocket.openSocket h code).2) ∧
      UsbCanSocket.newSocket h code = UsbCanSocket.openSocket h code := by
  intro h code hne
  refine ⟨?_, ?_, ?_, rfl⟩
  · rcases hh : (errorCatalogue.filter (fun p => p.1 = code)).head? with _ | p
    · refine ⟨.Unknown, ?_, Or.inr rfl⟩
      show decodeStatus code _ = _
      rw [decodeStatus, PcanOkError.tryFrom, if_neg hne, hh]
    · refine ⟨p.2, ?_, Or.inl ?_⟩
      · show decodeStatus code _ = _
        rw [decodeStatus, PcanOkError.tryFrom, if_neg hne, hh]
      · have hpmem : p ∈ errorCatalogue.filter (fun q => q.1 = code) :=
          List.mem_of_mem_head? (by simp [hh])
        have h1 : p ∈ errorCatalogue := List.mem_of_mem_filter hpmem
        have h2 : p.1 = code := by simpa using List.of_mem_filter hpmem
        have : ((p.1, p.2) : Nat × PcanError) = p := rfl
        rw [← h2]
        rw [this]
        exact h1
  · intro s hs
    have h1 : decodeStatus code (⟨h⟩ : UsbCanSocket) = .ok s := hs
    rw [decodeStatus, PcanOkError.tryFrom, if_neg hne] at h1
    rcases hh : (errorCatalogue.filter (fun p => p.1 = code)).head? with _ | p <;>
      simp [hh] at h1
  · intro h' hmem
    simp [UsbCanSocket.openSocket] at hmem

theorem open_failure_releases_nothing_witness :
    (∃ e : PcanError, (UsbCanSocket.openSocket 81 0x20).1 = .error e ∧
      ((0x20, e) ∈ errorCatalogue ∨ e = PcanError.Unknown)) ∧
    (∀ s, (UsbCanSocket.openSocket 81 0x20).1 ≠ .ok s) ∧
    (∀ h', ForeignCall.uninit h' ∉ (UsbCanSocket.openSocket 81 0x20).2) :=
  ⟨(open_failure_releases_nothing 81 0x20 (by decide)).1,
   (open_failure_releases_nothing 81 0x20 (by decide)).2.1,
   (open_failure_releases_nothing 81 0x20 (by decide)).2.2.1⟩

/-- C4 (the claim fails on the code): a socket produced by a successful
lib.rs `new` — `CanSocket` here; none of the seven lib.rs socket types
implements `Drop`, and `SocketDropWrapper` is never constructed — is
released zero times when its lifetime ends, not exactly once: the trace
of a successful `new` followed by the value's drop contains no
uninitialize call.  Only the usb.rs `open`-constructed `UsbCanSocket`
behaves as claimed: in any event sequence, releases for a handle equal
the drop events of usb.rs sockets carrying it, each such drop releasing
exactly once and moves releasing nothing. -/
theorem new_socket_drop_releases_nothing :
    (CanSocket.newSocket 7 PCAN_ERROR_OK).1 = .ok ⟨7⟩ ∧
    (∀ s : CanSocket, s.dropGlue = []) ∧
    countUninit 7 (traceCalls [.newOpened PCAN_ERROR_OK 7, .droppedNew ⟨7⟩]) = 0 ∧
    (∀ (evs : List SocketEvent) (h : Nat),
      countUninit h (traceCalls evs) = countDrops h evs) ∧
    (∀ s : UsbCanSocket, SocketEvent.calls (.moved s) = []) ∧
    (∀ s : UsbCanSocket, countUninit s.handle s.dropGlue = 1) := by
  refine ⟨rfl, fun s => rfl, by decide, ?_, fun s => rfl, ?_⟩
  · intro evs h
    induction evs with
    | nil => rfl
    | cons e rest ih =>
      have h1 : traceCalls (e :: rest) = SocketEvent.calls e ++ traceCalls rest := by
        simp [traceCalls]
      rw [h1]
      unfold countUninit countDrops
      unfold countUninit countDrops at ih
      rw [List.countP_append, List.countP_cons, ih]
      cases e with
      | opened code hd => simp [SocketEvent.calls, UsbCanSocket.openSocket]
      | newOpened code hd => simp [SocketEvent.calls, CanSocket.newSocket]
      | moved s => simp [SocketEvent.calls]
      | movedNew s => simp [SocketEvent.calls]
      | useRead s code => simp [SocketEvent.calls, canReadFrame]
      | useWrite s code => simp [SocketEvent.calls, canWrite]
      | dropped s =>
        by_cases hsh : s.handle = h <;>
          simp [SocketEvent.calls, UsbCanSocket.dropGlue, hsh, Nat.add_comm]
      | droppedNew s => simp [SocketEvent.calls, CanSocket.dropGlue]
  · intro s
    simp [countUninit, UsbCanSocket.dropGlue]

theorem frame_new_never_mismatch_witness :
    ((∃ f, CanFrame.new 1 MessageType.Standard [5] = .ok f) ∨
      CanFrame.new 1 MessageType.Standard [5] = .error .TooMuchData) ∧
    ((∃ f, CanFdFrame.new 1 MessageType.Extended (List.replicate 65 0) = .ok f) ∨
      CanFdFrame.new 1 MessageType.Extended (List.replicate 65 0)
        = .error .TooMuchData) :=
  ⟨frame_new_never_mismatch.1 1 MessageType.Standard [5],
   frame_new_never_mismatch.2.1 1 MessageType.Extended (List.replicate 65 0)⟩
